import Mathlib

/-!
Shallow embedding of the translation-cache-and-stats core of the greeter
repository (src/greeter.go), with the persistence snapshot and the external
translation provider made explicit.  Stateful Go methods become explicit
state-passing functions on `GreeterState`; Go's `float64` cost accumulator is
modelled with exact rational arithmetic; `encoding/json` marshalling of the
nested string map is modelled by a structural `Json` value type.
-/

/-- Model of Go's per-character UTF-8 encoded size (`utf8.RuneLen`). -/
def charUtf8Size (c : Char) : Nat :=
  if c.toNat < 0x80 then 1
  else if c.toNat < 0x800 then 2
  else if c.toNat < 0x10000 then 3
  else 4

/-- Model of Go's `len` on a string: the number of UTF-8 bytes. -/
def goLen (s : String) : Nat :=
  s.data.foldl (fun n c => n + charUtf8Size c) 0

/-- `Stats` from src/greeter.go.  `CostEstimate` is a Go `float64`; it is
modelled here with exact rational arithmetic. -/
structure Stats where
  apiCalls : Nat
  charsSent : Nat
  costEstimate : ℚ
  cacheHits : Nat
  deriving Repr, DecidableEq

/-- Association-list read, modelling a Go map read `m[k]`. -/
def getAssoc {α : Type} : List (String × α) → String → Option α
  | [], _ => none
  | (k, v) :: rest, key => if k = key then some v else getAssoc rest key

/-- Association-list write, modelling a Go map write `m[k] = v`. -/
def setAssoc {α : Type} : List (String × α) → String → α → List (String × α)
  | [], key, v => [(key, v)]
  | (k, w) :: rest, key, v =>
      if k = key then (key, v) :: rest else (k, w) :: setAssoc rest key v

/-- `TranslationCache.Translations`: map[sourceText]map[targetLang]translatedText. -/
abbrev Translations : Type := List (String × List (String × String))

/-- The cache read performed by `translateGreeting`:
`g.cache.Translations[text][targetLang]`. -/
def lookupTranslation (cache : Translations) (text lang : String) : Option String :=
  match getAssoc cache text with
  | some langCache => getAssoc langCache lang
  | none => none

/-- The cache write performed by `translateGreeting`: allocate the inner map
when absent, then `g.cache.Translations[text][targetLang] = translation`. -/
def insertTranslation (cache : Translations) (text lang translation : String) :
    Translations :=
  let langCache := (getAssoc cache text).getD []
  setAssoc cache text (setAssoc langCache lang translation)

/-- Structural model of the JSON values `encoding/json` moves between the
cache's nested string map and the snapshot file. -/
inductive Json where
  | null
  | bool (b : Bool)
  | num (n : Int)
  | str (s : String)
  | arr (elems : List Json)
  | obj (fields : List (String × Json))

/-- `json.Marshal` of one inner map[string]string. -/
def marshalLangMap (langCache : List (String × String)) : Json :=
  Json.obj (langCache.map (fun p => (p.1, Json.str p.2)))

/-- `json.MarshalIndent(g.cache.Translations, ...)` as performed by `saveCache`. -/
def marshalTranslations (cache : Translations) : Json :=
  Json.obj (cache.map (fun p => (p.1, marshalLangMap p.2)))

/-- `encoding/json` decoding of one value into a Go `string` map element: a
JSON string decodes to itself; anything else saves an UnmarshalTypeError and
leaves the element at its zero value "" (the decoder stores the element into
the map either way and continues). -/
def decodeStrField : Json → String × Bool
  | Json.str v => (v, false)
  | _ => ("", true)

/-- `encoding/json` decoding of the fields of one inner object into
map[string]string: every key receives an entry, a non-string value yields the
zero value "" and saves an error, and decoding continues with the remaining
fields.  Fields are decoded in document order; the caches marshalled in this
development never contain duplicate keys, so Go's last-duplicate-wins map
write is not modelled separately. -/
def decodeStrMapFields : List (String × Json) → List (String × String) × Bool
  | [] => ([], false)
  | (k, j) :: rest =>
      ((k, (decodeStrField j).1) :: (decodeStrMapFields rest).1,
       (decodeStrField j).2 || (decodeStrMapFields rest).2)

/-- `encoding/json` decoding of one value into map[string]string: an object
decodes field by field; anything else saves an UnmarshalTypeError and leaves
the element at its zero value, the nil map. -/
def decodeLangMap : Json → List (String × String) × Bool
  | Json.obj fields => decodeStrMapFields fields
  | _ => ([], true)

/-- `encoding/json` decoding of the fields of the outer object: every key
receives an entry holding the best-effort decode of its value; inner errors
are saved and decoding continues with the remaining fields. -/
def decodeOuterFields : List (String × Json) → Translations × Bool
  | [] => ([], false)
  | (k, j) :: rest =>
      ((k, (decodeLangMap j).1) :: (decodeOuterFields rest).1,
       (decodeLangMap j).2 || (decodeOuterFields rest).2)

/-- `json.Unmarshal(data, &cache.Translations)` as performed by `NewGreeter`,
with Go's skip-and-continue semantics: a top-level object is decoded field by
field, type mismatches save the first UnmarshalTypeError while the remaining
entries are still populated; a top-level non-object saves an error and leaves
the pre-allocated map untouched.  The Bool is whether `Unmarshal` returned a
non-nil error.  Syntactically invalid bytes are outside this value model; Go
rejects them before any decoding, also leaving the map untouched. -/
def unmarshalTranslations : Json → Translations × Bool
  | Json.obj fields => decodeOuterFields fields
  | _ => ([], true)

/-- The cache-loading step of `NewGreeter` (src/greeter.go:81-85): start from
the empty map; a missing file leaves it empty; otherwise `Unmarshal` populates
the map as best it can, and an `Unmarshal` error is only logged — the code
never resets the map, so whatever was populated is kept. -/
def loadCache (file : Option Json) : Translations :=
  match file with
  | none => []
  | some j => (unmarshalTranslations j).1

/-- Outcome of `client.TranslateText`: a Go error, or a response carrying a
list of translated texts (`resp.GetTranslations()`). -/
inductive ProviderResult where
  | failure (msg : String)
  | success (translations : List String)
  deriving Repr, DecidableEq

/-- The mutable state a `Greeter` touches: its cache, its stats, and the
snapshot file `g.cacheFile` (none = file absent). -/
structure GreeterState where
  cache : Translations
  stats : Stats
  snapshot : Option Json

/-- `getTimeBasedGreeting` from src/greeter.go, with the wall clock's
`Hour()` passed explicitly.  `fmt.Sprintf("%s, %s!", greeting, recipient)`. -/
def getTimeBasedGreeting (recipient : String) (hour : Nat) : String :=
  let greeting :=
    if hour < 12 then "Good morning"
    else if hour < 17 then "Good afternoon"
    else if hour < 22 then "Good evening"
    else "Good night"
  greeting ++ ", " ++ recipient ++ "!"

/-- `translateGreeting` from src/greeter.go.  `lang` is `g.language`; `resp`
is the outcome of the provider call (consulted only on a cache miss); `writeOk`
tells whether the `saveCache` disk write succeeds (its failure is only
logged).  Returns the Go `(string, error)` pair and the updated state. -/
def translateGreeting (lang text : String) (resp : ProviderResult) (writeOk : Bool)
    (s : GreeterState) : Except String String × GreeterState :=
  match lookupTranslation s.cache text lang with
  | some translation =>
      (Except.ok translation,
       { s with stats := { s.stats with cacheHits := s.stats.cacheHits + 1 } })
  | none =>
      let stats1 : Stats :=
        { s.stats with
          apiCalls := s.stats.apiCalls + 1
          charsSent := s.stats.charsSent + goLen text
          costEstimate := s.stats.costEstimate + (goLen text : ℚ) * 0.00002 }
      match resp with
      | ProviderResult.failure msg =>
          (Except.error ("translation failed: " ++ msg), { s with stats := stats1 })
      | ProviderResult.success translations =>
          match translations with
          | [] => (Except.error "no translation returned", { s with stats := stats1 })
          | translation :: _ =>
              let cache1 := insertTranslation s.cache text lang translation
              let snapshot1 :=
                if writeOk then some (marshalTranslations cache1) else s.snapshot
              (Except.ok translation,
               { cache := cache1, stats := stats1, snapshot := snapshot1 })

/-- `Greet` from src/greeter.go: compose the time-based greeting; translate it
unless the language is the default "en", in which case count a cache hit. -/
def Greet (recipient lang : String) (hour : Nat) (resp : ProviderResult)
    (writeOk : Bool) (s : GreeterState) : Except String String × GreeterState :=
  let greeting := getTimeBasedGreeting recipient hour
  if lang ≠ "en" then
    match translateGreeting lang greeting resp writeOk s with
    | (Except.ok translated, s1) => (Except.ok translated, s1)
    | (Except.error e, s1) => (Except.error ("translation failed: " ++ e), s1)
  else
    (Except.ok greeting,
     { s with stats := { s.stats with cacheHits := s.stats.cacheHits + 1 } })

/-- States reachable from a freshly constructed `Greeter` (zeroed stats, cache
loaded from the snapshot file) by any sequence of greet/translate calls. -/
inductive Reachable : GreeterState → Prop where
  | init (file : Option Json) : Reachable ⟨loadCache file, ⟨0, 0, 0, 0⟩, file⟩
  | greet (recipient lang : String) (hour : Nat) (resp : ProviderResult)
      (writeOk : Bool) (s : GreeterState) : Reachable s →
      Reachable (Greet recipient lang hour resp writeOk s).2
  | translate (lang text : String) (resp : ProviderResult) (writeOk : Bool)
      (s : GreeterState) : Reachable s →
      Reachable (translateGreeting lang text resp writeOk s).2

/-! ## Helper lemmas -/

theorem getAssoc_setAssoc_self {α : Type} (l : List (String × α)) (k : String) (v : α) :
    getAssoc (setAssoc l k v) k = some v := by
  induction l with
  | nil => simp [setAssoc, getAssoc]
  | cons p rest ih =>
      obtain ⟨k1, w⟩ := p
      by_cases hk : k1 = k
      · simp [setAssoc, hk, getAssoc]
      · simp [setAssoc, hk, getAssoc, ih]

theorem lookupTranslation_insert_self (c : Translations) (text lang v : String) :
    lookupTranslation (insertTranslation c text lang v) text lang = some v := by
  unfold insertTranslation lookupTranslation
  simp [getAssoc_setAssoc_self]

theorem translateGreeting_ok_cache (lang text : String) (resp : ProviderResult)
    (w : Bool) (s : GreeterState) (t : String) (s1 : GreeterState)
    (h : translateGreeting lang text resp w s = (Except.ok t, s1)) :
    lookupTranslation s1.cache text lang = some t := by
  unfold translateGreeting at h
  cases hc : lookupTranslation s.cache text lang with
  | some v =>
      rw [hc] at h
      simp only [Prod.mk.injEq, Except.ok.injEq] at h
      obtain ⟨h1, h2⟩ := h
      rw [← h2]
      simp [hc, h1]
  | none =>
      rw [hc] at h
      cases resp with
      | failure msg => simp at h
      | success translations =>
          cases translations with
          | nil => simp at h
          | cons x rest =>
              simp only [Prod.mk.injEq, Except.ok.injEq] at h
              obtain ⟨h1, h2⟩ := h
              rw [← h2, ← h1]
              exact lookupTranslation_insert_self s.cache text lang x

theorem translateGreeting_miss_stats (lang text : String) (resp : ProviderResult)
    (w : Bool) (s : GreeterState)
    (hmiss : lookupTranslation s.cache text lang = none) :
    (translateGreeting lang text resp w s).2.stats.apiCalls = s.stats.apiCalls + 1 ∧
    (translateGreeting lang text resp w s).2.stats.charsSent = s.stats.charsSent + goLen text ∧
    (translateGreeting lang text resp w s).2.stats.costEstimate =
      s.stats.costEstimate + (goLen text : ℚ) * 0.00002 := by
  unfold translateGreeting
  simp only [hmiss]
  cases resp with
  | failure msg => exact ⟨rfl, rfl, rfl⟩
  | success translations => cases translations <;> exact ⟨rfl, rfl, rfl⟩

theorem translateGreeting_stats_cases (lang text : String) (resp : ProviderResult)
    (w : Bool) (s : GreeterState) :
    ((translateGreeting lang text resp w s).2.stats.charsSent = s.stats.charsSent ∧
     (translateGreeting lang text resp w s).2.stats.costEstimate = s.stats.costEstimate) ∨
    ((translateGreeting lang text resp w s).2.stats.charsSent = s.stats.charsSent + goLen text ∧
     (translateGreeting lang text resp w s).2.stats.costEstimate =
       s.stats.costEstimate + (goLen text : ℚ) * 0.00002) := by
  cases hc : lookupTranslation s.cache text lang with
  | some v =>
      left
      simp [translateGreeting, hc]
  | none =>
      right
      exact (translateGreeting_miss_stats lang text resp w s hc).2

theorem Greet_state_cases (recipient lang : String) (hour : Nat) (resp : ProviderResult)
    (w : Bool) (s : GreeterState) :
    (Greet recipient lang hour resp w s).2 =
      (translateGreeting lang (getTimeBasedGreeting recipient hour) resp w s).2 ∨
    (Greet recipient lang hour resp w s).2 =
      { s with stats := { s.stats with cacheHits := s.stats.cacheHits + 1 } } := by
  unfold Greet
  by_cases hl : lang = "en"
  · right; simp [hl]
  · left
    simp only [hl, ne_eq, not_false_iff, if_true]
    cases hres : translateGreeting lang (getTimeBasedGreeting recipient hour) resp w s with
    | mk r s1 => cases r <;> simp

theorem decodeStrMapFields_marshal (l : List (String × String)) :
    decodeStrMapFields (l.map fun p => (p.1, Json.str p.2)) = (l, false) := by
  induction l with
  | nil => rfl
  | cons p rest ih =>
      obtain ⟨k, v⟩ := p
      simp [decodeStrMapFields, decodeStrField, ih]

theorem decodeLangMap_marshal (l : List (String × String)) :
    decodeLangMap (marshalLangMap l) = (l, false) := by
  simp [marshalLangMap, decodeLangMap, decodeStrMapFields_marshal]

theorem decodeOuterFields_marshal (c : Translations) :
    decodeOuterFields (c.map fun p => (p.1, marshalLangMap p.2)) = (c, false) := by
  induction c with
  | nil => rfl
  | cons p rest ih =>
      obtain ⟨k, langCache⟩ := p
      simp [decodeOuterFields, decodeLangMap_marshal, ih]

theorem unmarshalTranslations_marshal (c : Translations) :
    unmarshalTranslations (marshalTranslations c) = (c, false) := by
  simp [marshalTranslations, unmarshalTranslations, decodeOuterFields_marshal]

theorem translateGreeting_preserves_cost_inv (lang text : String)
    (resp : ProviderResult) (w : Bool) (s : GreeterState)
    (ih : s.stats.costEstimate = (s.stats.charsSent : ℚ) * 0.00002) :
    (translateGreeting lang text resp w s).2.stats.costEstimate =
      ((translateGreeting lang text resp w s).2.stats.charsSent : ℚ) * 0.00002 := by
  rcases translateGreeting_stats_cases lang text resp w s with ⟨h1, h2⟩ | ⟨h1, h2⟩
  · rw [h1, h2, ih]
  · rw [h1, h2, ih]
    push_cast
    ring

/-! ## Claim theorems -/

/-- Claim C1: `getTimeBasedGreeting` is a pure function of the clock hour and
the recipient: hours in [0,12) produce "Good morning, X!", hours in [12,17)
produce "Good afternoon, X!", hours in [17,22) produce "Good evening, X!",
and hours in [22,24) produce "Good night, X!", with the boundaries at 12, 17
and 22 exclusive on the lower greeting and inclusive on the upper. -/
theorem getTimeBasedGreeting_hour_buckets (X : String) (h : Nat) :
    (h < 12 → getTimeBasedGreeting X h = "Good morning, " ++ X ++ "!") ∧
    (12 ≤ h → h < 17 → getTimeBasedGreeting X h = "Good afternoon, " ++ X ++ "!") ∧
    (17 ≤ h → h < 22 → getTimeBasedGreeting X h = "Good evening, " ++ X ++ "!") ∧
    (22 ≤ h → h < 24 → getTimeBasedGreeting X h = "Good night, " ++ X ++ "!") := by
  refine ⟨fun h1 => ?_, fun h1 h2 => ?_, fun h1 h2 => ?_, fun h1 h2 => ?_⟩
  · simp [getTimeBasedGreeting, h1, String.append_assoc]
  · simp [getTimeBasedGreeting, Nat.not_lt.mpr h1, h2, String.append_assoc]
  · simp [getTimeBasedGreeting, Nat.not_lt.mpr (show 12 ≤ h by omega),
      Nat.not_lt.mpr h1, h2, String.append_assoc]
  · simp [getTimeBasedGreeting, Nat.not_lt.mpr (show 12 ≤ h by omega),
      Nat.not_lt.mpr (show 17 ≤ h by omega), Nat.not_lt.mpr h1, String.append_assoc]

/-- Witness for C1: the four sample hours of the spec's hour-boundary table. -/
theorem getTimeBasedGreeting_hour_buckets_witness :
    getTimeBasedGreeting "X" 8 = "Good morning, X!" ∧
    getTimeBasedGreeting "X" 13 = "Good afternoon, X!" ∧
    getTimeBasedGreeting "X" 19 = "Good evening, X!" ∧
    getTimeBasedGreeting "X" 23 = "Good night, X!" := by
  exact ⟨(getTimeBasedGreeting_hour_buckets "X" 8).1 (by decide),
    (getTimeBasedGreeting_hour_buckets "X" 13).2.1 (by decide) (by decide),
    (getTimeBasedGreeting_hour_buckets "X" 19).2.2.1 (by decide) (by decide),
    (getTimeBasedGreeting_hour_buckets "X" 23).2.2.2 (by decide) (by decide)⟩

/-- Claim C2: cache idempotence.  After one successful translate of a
(text, language) pair, a second translate of the same pair returns exactly the
same text, increments only `cacheHits`, consults no provider (the second
provider outcome is arbitrary and unused), and performs no persistence write
(cache and snapshot are unchanged, the write outcome is arbitrary). -/
theorem translate_cache_idempotent (s s1 : GreeterState) (lang text t : String)
    (resp : ProviderResult) (writeOk : Bool)
    (hfirst : translateGreeting lang text resp writeOk s = (Except.ok t, s1))
    (resp2 : ProviderResult) (writeOk2 : Bool) :
    translateGreeting lang text resp2 writeOk2 s1 =
      (Except.ok t,
       { s1 with stats := { s1.stats with cacheHits := s1.stats.cacheHits + 1 } }) := by
  have hlook := translateGreeting_ok_cache lang text resp writeOk s t s1 hfirst
  simp [translateGreeting, hlook]

/-- Witness for C2: a concrete miss-then-hit pair on an initially empty cache. -/
theorem translate_cache_idempotent_witness :
    translateGreeting "es" "hi" (ProviderResult.failure "down") false
        (translateGreeting "es" "hi" (ProviderResult.success ["hola"]) true
          ⟨[], ⟨0, 0, 0, 0⟩, none⟩).2 =
      (Except.ok "hola",
       { (translateGreeting "es" "hi" (ProviderResult.success ["hola"]) true
            ⟨[], ⟨0, 0, 0, 0⟩, none⟩).2 with
         stats :=
          { (translateGreeting "es" "hi" (ProviderResult.success ["hola"]) true
              ⟨[], ⟨0, 0, 0, 0⟩, none⟩).2.stats with
            cacheHits :=
              (translateGreeting "es" "hi" (ProviderResult.success ["hola"]) true
                ⟨[], ⟨0, 0, 0, 0⟩, none⟩).2.stats.cacheHits + 1 } }) :=
  translate_cache_idempotent ⟨[], ⟨0, 0, 0, 0⟩, none⟩
    (translateGreeting "es" "hi" (ProviderResult.success ["hola"]) true
      ⟨[], ⟨0, 0, 0, 0⟩, none⟩).2
    "es" "hi" "hola" (ProviderResult.success ["hola"]) true rfl
    (ProviderResult.failure "down") false

/-- Claim C3: default-language accounting.  A greet request with language "en"
returns the base greeting unmodified, never consults the provider (the
provider outcome is arbitrary and unused), never touches the cache or the
snapshot, and increments `cacheHits` by exactly one, leaving `apiCalls`,
`charsSent` and `costEstimate` unchanged. -/
theorem greet_default_language (recipient : String) (hour : Nat)
    (resp : ProviderResult) (writeOk : Bool) (s : GreeterState) :
    Greet recipient "en" hour resp writeOk s =
      (Except.ok (getTimeBasedGreeting recipient hour),
       { s with stats := { s.stats with cacheHits := s.stats.cacheHits + 1 } }) := by
  simp [Greet]

/-- Claim C4: cost formula on attempted calls.  On any cache miss, whether the
provider call succeeds or fails, `apiCalls` increases by one, `charsSent`
increases by the length of the submitted text, and `costEstimate` increases by
that length times 0.00002; failures are not rolled back (the provider outcome
is universally quantified). -/
theorem translate_cost_formula (lang text : String) (resp : ProviderResult)
    (writeOk : Bool) (s : GreeterState)
    (hmiss : lookupTranslation s.cache text lang = none) :
    (translateGreeting lang text resp writeOk s).2.stats.apiCalls =
      s.stats.apiCalls + 1 ∧
    (translateGreeting lang text resp writeOk s).2.stats.charsSent =
      s.stats.charsSent + goLen text ∧
    (translateGreeting lang text resp writeOk s).2.stats.costEstimate =
      s.stats.costEstimate + (goLen text : ℚ) * 0.00002 :=
  translateGreeting_miss_stats lang text resp writeOk s hmiss

/-- Witness for C4: a failed provider call on "hi" from an empty cache. -/
theorem translate_cost_formula_witness :
    (translateGreeting "es" "hi" (ProviderResult.failure "down") true
        ⟨[], ⟨0, 0, 0, 0⟩, none⟩).2.stats.apiCalls = 0 + 1 ∧
    (translateGreeting "es" "hi" (ProviderResult.failure "down") true
        ⟨[], ⟨0, 0, 0, 0⟩, none⟩).2.stats.charsSent = 0 + goLen "hi" ∧
    (translateGreeting "es" "hi" (ProviderResult.failure "down") true
        ⟨[], ⟨0, 0, 0, 0⟩, none⟩).2.stats.costEstimate =
      0 + (goLen "hi" : ℚ) * 0.00002 :=
  translate_cost_formula "es" "hi" (ProviderResult.failure "down") true
    ⟨[], ⟨0, 0, 0, 0⟩, none⟩ rfl

/-- Claim C5: stats invariant.  In every state reachable from a freshly
constructed Greeter (zeroed stats) by any sequence of greet / translate
operations, `costEstimate` equals `charsSent` times the fixed unit cost
0.00002. -/
theorem stats_cost_invariant (s : GreeterState) (h : Reachable s) :
    s.stats.costEstimate = (s.stats.charsSent : ℚ) * 0.00002 := by
  induction h with
  | init file => simp
  | greet recipient lang hour resp writeOk s1 _ ih =>
      rcases Greet_state_cases recipient lang hour resp writeOk s1 with heq | heq
      · rw [heq]
        exact translateGreeting_preserves_cost_inv lang
          (getTimeBasedGreeting recipient hour) resp writeOk s1 ih
      · rw [heq]
        exact ih
  | translate lang text resp writeOk s1 _ ih =>
      exact translateGreeting_preserves_cost_inv lang text resp writeOk s1 ih

/-- Witness for C5: the invariant at a concrete reachable state, reached by one
cache-miss translation from a fresh Greeter with no snapshot file. -/
theorem stats_cost_invariant_witness :
    (translateGreeting "es" "hi" (ProviderResult.success ["hola"]) true
        ⟨loadCache none, ⟨0, 0, 0, 0⟩, none⟩).2.stats.costEstimate =
      ((translateGreeting "es" "hi" (ProviderResult.success ["hola"]) true
          ⟨loadCache none, ⟨0, 0, 0, 0⟩, none⟩).2.stats.charsSent : ℚ) * 0.00002 :=
  stats_cost_invariant _
    (Reachable.translate "es" "hi" (ProviderResult.success ["hola"]) true
      ⟨loadCache none, ⟨0, 0, 0, 0⟩, none⟩ (Reachable.init none))

/-- Claim C6: failure isolation.  On a cache miss, if the provider call fails
or returns an empty translation list, translate returns an error, inserts no
entry (the cache is exactly the prior cache), and writes nothing to the
snapshot file. -/
theorem translate_failure_isolation (lang text : String) (resp : ProviderResult)
    (writeOk : Bool) (s : GreeterState)
    (hmiss : lookupTranslation s.cache text lang = none)
    (hfail : (∃ msg, resp = ProviderResult.failure msg) ∨
      resp = ProviderResult.success []) :
    (∃ e, (translateGreeting lang text resp writeOk s).1 = Except.error e) ∧
    (translateGreeting lang text resp writeOk s).2.cache = s.cache ∧
    (translateGreeting lang text resp writeOk s).2.snapshot = s.snapshot := by
  unfold translateGreeting
  simp only [hmiss]
  rcases hfail with ⟨msg, rfl⟩ | rfl
  · exact ⟨⟨_, rfl⟩, rfl, rfl⟩
  · exact ⟨⟨_, rfl⟩, rfl, rfl⟩

/-- Witness for C6: a failed provider call with a prior cache entry for the
same text under another language; that entry survives untouched. -/
theorem translate_failure_isolation_witness :
    (∃ e, (translateGreeting "es" "hi" (ProviderResult.failure "down") true
        ⟨[("hi", [("fr", "salut")])], ⟨0, 0, 0, 0⟩, none⟩).1 = Except.error e) ∧
    (translateGreeting "es" "hi" (ProviderResult.failure "down") true
        ⟨[("hi", [("fr", "salut")])], ⟨0, 0, 0, 0⟩, none⟩).2.cache =
      [("hi", [("fr", "salut")])] ∧
    (translateGreeting "es" "hi" (ProviderResult.failure "down") true
        ⟨[("hi", [("fr", "salut")])], ⟨0, 0, 0, 0⟩, none⟩).2.snapshot = none :=
  translate_failure_isolation "es" "hi" (ProviderResult.failure "down") true
    ⟨[("hi", [("fr", "salut")])], ⟨0, 0, 0, 0⟩, none⟩ rfl (Or.inl ⟨"down", rfl⟩)

/-- Claim C7: persistence round-trip.  Serializing any cache the way
`saveCache` does and loading a fresh cache from the resulting snapshot the way
`NewGreeter` does reproduces the cache exactly, pair for pair and value for
value. -/
theorem cache_persistence_roundtrip (c : Translations) :
    loadCache (some (marshalTranslations c)) = c ∧
    ∀ text lang, lookupTranslation (loadCache (some (marshalTranslations c))) text lang =
      lookupTranslation c text lang := by
  have h := unmarshalTranslations_marshal c
  refine ⟨?_, ?_⟩
  · simp [loadCache, h]
  · intro text lang
    simp [loadCache, h]

/-- Claim C8: persistence failure is absorbed.  On a cache miss with a
successful provider translation but a failing snapshot write, translate still
returns the translated text without error, the new in-memory cache entry is
present, and the snapshot file is left as it was. -/
theorem translate_persist_failure_absorbed (lang text t : String)
    (rest : List String) (s : GreeterState)
    (hmiss : lookupTranslation s.cache text lang = none) :
    (translateGreeting lang text (ProviderResult.success (t :: rest)) false s).1 =
      Except.ok t ∧
    (translateGreeting lang text (ProviderResult.success (t :: rest)) false s).2.cache =
      insertTranslation s.cache text lang t ∧
    lookupTranslation
      (translateGreeting lang text (ProviderResult.success (t :: rest)) false s).2.cache
      text lang = some t ∧
    (translateGreeting lang text (ProviderResult.success (t :: rest)) false s).2.snapshot =
      s.snapshot := by
  simp [translateGreeting, hmiss, lookupTranslation_insert_self]

/-- Witness for C8: a successful translation of "hi" with a failing disk
write, from an empty cache. -/
theorem translate_persist_failure_absorbed_witness :
    (translateGreeting "es" "hi" (ProviderResult.success ["hola"]) false
        ⟨[], ⟨0, 0, 0, 0⟩, none⟩).1 = Except.ok "hola" ∧
    (translateGreeting "es" "hi" (ProviderResult.success ["hola"]) false
        ⟨[], ⟨0, 0, 0, 0⟩, none⟩).2.cache = insertTranslation [] "hi" "es" "hola" ∧
    lookupTranslation
      (translateGreeting "es" "hi" (ProviderResult.success ["hola"]) false
          ⟨[], ⟨0, 0, 0, 0⟩, none⟩).2.cache "hi" "es" = some "hola" ∧
    (translateGreeting "es" "hi" (ProviderResult.success ["hola"]) false
        ⟨[], ⟨0, 0, 0, 0⟩, none⟩).2.snapshot = none :=
  translate_persist_failure_absorbed "es" "hi" "hola" [] ⟨[], ⟨0, 0, 0, 0⟩, none⟩ rfl

/-- Claim C10 (implicit): `charsSent` counts UTF-8 bytes (Go `len`), not
characters.  Every cache-miss translate adds `goLen text` to `charsSent`; on
all-ASCII text `goLen` coincides with the character count; but for the
recipient "José" the composed greeting's byte length strictly exceeds its
character count, and so does the `charsSent` recorded for its translation. -/
theorem charsSent_is_utf8_bytes :
    (∀ (lang text : String) (resp : ProviderResult) (writeOk : Bool) (s : GreeterState),
       lookupTranslation s.cache text lang = none →
       (translateGreeting lang text resp writeOk s).2.stats.charsSent =
         s.stats.charsSent + goLen text) ∧
    (∀ text : String, (∀ c ∈ text.data, c.toNat < 128) → goLen text = text.length) ∧
    goLen (getTimeBasedGreeting "José" 8) > (getTimeBasedGreeting "José" 8).length ∧
    (translateGreeting "es" (getTimeBasedGreeting "José" 8)
        (ProviderResult.success ["¡Buenos días, José!"]) true
        ⟨[], ⟨0, 0, 0, 0⟩, none⟩).2.stats.charsSent >
      (getTimeBasedGreeting "José" 8).length := by
  refine ⟨?_, ?_, ?_, ?_⟩
  · intro lang text resp writeOk s hmiss
    exact (translateGreeting_miss_stats lang text resp writeOk s hmiss).2.1
  · intro text hascii
    have key : ∀ (l : List Char) (n : Nat), (∀ c ∈ l, c.toNat < 128) →
        l.foldl (fun m c => m + charUtf8Size c) n = n + l.length := by
      intro l
      induction l with
      | nil => intro n _; simp
      | cons c rest ih =>
          intro n hall
          have hc : charUtf8Size c = 1 := by
            unfold charUtf8Size
            rw [if_pos (hall c (List.mem_cons_self c rest))]
          simp only [List.foldl_cons, hc]
          rw [ih (n + 1) (fun d hd => hall d (List.mem_cons_of_mem c hd))]
          simp [List.length_cons]
          omega
    unfold goLen
    rw [key text.data 0 hascii]
    have hlen : text.length = text.data.length := rfl
    omega
  · decide
  · decide

/-- Witness for C10: a concrete miss on "hi" records `goLen "hi"` characters,
and on the all-ASCII text "Good morning, Ana!" the byte count equals the
character count. -/
theorem charsSent_is_utf8_bytes_witness :
    (translateGreeting "es" "hi" (ProviderResult.failure "down") true
        ⟨[], ⟨0, 0, 0, 0⟩, none⟩).2.stats.charsSent = 0 + goLen "hi" ∧
    goLen "Good morning, Ana!" = ("Good morning, Ana!" : String).length :=
  ⟨charsSent_is_utf8_bytes.1 "es" "hi" (ProviderResult.failure "down") true
      ⟨[], ⟨0, 0, 0, 0⟩, none⟩ rfl,
   charsSent_is_utf8_bytes.2.1 "Good morning, Ana!" (by decide)⟩
